import Mathlib

/-!
Verification of the video composition pipeline of the multiAccAdmin
repository.

The repository ships the frontend (assets/js/generator.js, assets/js/utils.js)
and extensive documentation of the FastAPI backend
(backend/API_DOCUMENTATION.md and several README files); the backend Python
modules themselves (app/services/video_generator.py, app/api/generator.py,
app/models/project.py) are not part of the available sources.  Definitions
embedded from the frontend JavaScript are translated line by line from
generator.js; definitions for the backend pipeline are modelled from the
specification and are marked as such in their doc comments.
-/

namespace MultiAccAdmin

/-! ## Filter enumerations -/

/-- Filter identifiers documented by the repository itself:
src/backend/API_DOCUMENTATION.md, section "Video Filters" (lines 528-538),
and the backend README (part_004, lines 232-239).  `none` plus the six
documented effect filters. -/
def documentedFilterTypes : List String :=
  ["none", "cinematic", "bright", "cyberpunk", "vintage", "warm", "cool"]

/-- The closed enumeration asserted by the Preset Table of the spec (section
4.2): `none, vintage, cold, warm, bw, vaporwave`. -/
def specFilterTypes : List String :=
  ["none", "vintage", "cold", "warm", "bw", "vaporwave"]

/-! ## Data model

Modelled from the spec (section 3) and the Create Project response in
src/backend/API_DOCUMENTATION.md (lines 267-287): a Project carries its
settings, a lifecycle status, an optional `output_path` and an optional
`error_message`. -/

inductive Status
  | draft
  | processing
  | completed
  | failed
deriving DecidableEq, Repr

/-- Error taxonomy of the spec (section 7); only the synchronous errors are
values, pipeline errors are recorded on the Project. -/
inductive GenError
  | validationError (msg : String)
  | invalidStateError (msg : String)
deriving DecidableEq, Repr

/-- Project settings, the fixed-shape record of the spec (section 3). -/
structure Settings where
  video_track_path : Option String
  audio_track_path : Option String
  subtitle_text : String
  audio_volume : Int
  filter_type : String
  uniquify_subtitles : Bool
deriving DecidableEq, Repr

structure Project where
  id : Nat
  settings : Settings
  status : Status
  output_path : Option String
  error_message : Option String
deriving DecidableEq, Repr

/-- Invariant I1 of the spec: `output_path` is non-null iff the status is
`completed`. -/
def I1 (p : Project) : Prop :=
  p.output_path ≠ none ↔ p.status = Status.completed

/-- Invariant I2 of the spec: `error_message` is non-null iff the status is
`failed`. -/
def I2 (p : Project) : Prop :=
  p.error_message ≠ none ↔ p.status = Status.failed

/-- Both state invariants of the spec together. -/
def Invariants (p : Project) : Prop :=
  I1 p ∧ I2 p

instance (p : Project) : Decidable (I1 p) := by
  unfold I1; infer_instance

instance (p : Project) : Decidable (I2 p) := by
  unfold I2; infer_instance

instance (p : Project) : Decidable (Invariants p) := by
  unfold Invariants; infer_instance

/-! ## APIClient._request (embedded from generator.js, lines 385-407)

The fetch response is abstracted to the fields `_request` reads: `ok`,
`status`, `statusText`, and the result of `response.json()`.  A body either
fails to parse or parses to a JSON value whose optional string `detail`
field is retained (the only part `_request` inspects). -/

inductive JsBody
  | unparseable
  | json (detail : Option String)
deriving DecidableEq, Repr

structure HttpResponse where
  ok : Bool
  status : Nat
  statusText : String
  body : JsBody
deriving DecidableEq, Repr

/-- Outcome of `_request`: the promise resolves with the parsed body, or it
rejects with an `Error` whose message is recorded. -/
inductive RequestOutcome
  | resolved (detail : Option String)
  | thrown (message : String)
deriving DecidableEq, Repr

/-- The template literal fallback of generator.js line 399. -/
def httpFallback (r : HttpResponse) : String :=
  "HTTP " ++ toString r.status ++ ": " ++ r.statusText

/-- JavaScript `a || b` on an optional string: absent and the empty string
are falsy. -/
def jsOrElse : Option String → String → String
  | some s, fb => if s = "" then fb else s
  | none, fb => fb

/-- Embedding of `APIClient._request` (generator.js lines 385-407).  When the
response is not ok, `response.json().catch(() => ({detail: 'Request failed'}))`
yields the parsed detail or the literal `Request failed`, and the thrown
message is `error.detail || httpFallback`.  When the response is ok the parsed
body is returned; if that parse rejects, the rejection propagates through the
outer catch. -/
def requestFn (r : HttpResponse) : RequestOutcome :=
  if r.ok then
    match r.body with
    | JsBody.json d => RequestOutcome.resolved d
    | JsBody.unparseable => RequestOutcome.thrown "Unexpected end of JSON input"
  else
    match r.body with
    | JsBody.unparseable =>
        RequestOutcome.thrown (jsOrElse (some "Request failed") (httpFallback r))
    | JsBody.json d => RequestOutcome.thrown (jsOrElse d (httpFallback r))

/-- A 500 response whose body is not valid JSON. -/
def resp500 : HttpResponse :=
  { ok := false, status := 500, statusText := "Internal Server Error"
  , body := JsBody.unparseable }

/-! ## exportVideo (embedded from generator.js, lines 215-272)

The page state is abstracted to the variables the function reads:
`uploadedVideo` (null until a video upload succeeded), the value of the
account select element (the empty string when no account is chosen), and
`currentProject`.  The body is modelled as the list of observable actions it
performs in order; API requests that may reject are driven by an outcome
oracle, mirroring the try/catch. -/

inductive ApiCall
  | createProject
  | processVideo
  | exportRequest
deriving DecidableEq, Repr

inductive UIEvent
  | notification (message : String) (kind : String)
  | loaderShown (message : String)
  | loaderHidden
  | modalShown (title : String)
  | api (c : ApiCall)
deriving DecidableEq, Repr

structure GeneratorPage where
  uploadedVideo : Option String
  accountSelectValue : String
  currentProject : Option Nat
deriving DecidableEq, Repr

/-- The API calls occurring in a trace of UI events. -/
def apiCallsOf (trace : List UIEvent) : List ApiCall :=
  trace.filterMap fun e =>
    match e with
    | UIEvent.api c => some c
    | _ => none

/-- Tail of `exportVideo` after the project exists: `processVideo`, then
`exportVideo`, then the success UI; a rejection at either await falls to the
catch block (hideLoader, error notification). -/
def exportTail (fails : ApiCall → Option String) : List UIEvent :=
  match fails ApiCall.processVideo with
  | some m => [UIEvent.api ApiCall.processVideo, UIEvent.loaderHidden,
               UIEvent.notification m "error"]
  | none =>
    match fails ApiCall.exportRequest with
    | some m => [UIEvent.api ApiCall.processVideo, UIEvent.api ApiCall.exportRequest,
                 UIEvent.loaderHidden, UIEvent.notification m "error"]
    | none => [UIEvent.api ApiCall.processVideo, UIEvent.api ApiCall.exportRequest,
               UIEvent.loaderHidden,
               UIEvent.notification "Video exported successfully!" "success",
               UIEvent.modalShown "Export Complete"]

/-- Embedding of `exportVideo` (generator.js lines 215-272).  The two guard
clauses return after a warning notification; otherwise the loader is shown
and the API calls run inside try/catch. -/
def exportVideoFn (st : GeneratorPage) (fails : ApiCall → Option String) :
    List UIEvent :=
  match st.uploadedVideo with
  | none => [UIEvent.notification "Please upload a video first" "warning"]
  | some _ =>
    if st.accountSelectValue = "" then
      [UIEvent.notification "Please select a target account" "warning"]
    else
      UIEvent.loaderShown "Processing and exporting video..." ::
      (match st.currentProject with
       | none =>
         match fails ApiCall.createProject with
         | some m => [UIEvent.api ApiCall.createProject, UIEvent.loaderHidden,
                      UIEvent.notification m "error"]
         | none => UIEvent.api ApiCall.createProject :: exportTail fails
       | some _ => exportTail fails)

/-! ## Project state machine

The backend modules app/api/generator.py and app/services/video_generator.py
are not among the available sources; the operations below are modelled from
the spec (sections 4.1, 5, 7), with the filter enumeration taken from the
repository documentation (`documentedFilterTypes`). -/

/-- Modelled from the spec: validation shared by `create`, `update` and
`process` (sections 4.1 and 7): `video_track_path` present and non-empty,
`0 ≤ audio_volume ≤ 100`, and `filter_type` in the closed enumeration. -/
def validateSettings (s : Settings) : Option String :=
  if s.video_track_path.getD "" = "" then
    some "video_track_path is required"
  else if s.audio_volume < 0 ∨ 100 < s.audio_volume then
    some "audio_volume must be between 0 and 100"
  else if s.filter_type ∈ documentedFilterTypes then
    none
  else
    some "unknown filter_type"

/-- The create payload: the settings record plus the `status` field that the
frontend sends in its JSON body (generator.js lines 231-238 send
`status: processing`; lines 44-47 send `status: draft`). -/
structure CreateRequest where
  settings : Settings
  requested_status : Option Status
deriving DecidableEq, Repr

/-- Modelled from the spec: `create(settings)` (section 4.1, missing
app/api/generator.py).  It validates the settings and returns a new Project
in `draft`; the status field of the payload is not honoured, matching the
Create Project response of API_DOCUMENTATION.md. -/
def create (idv : Nat) (req : CreateRequest) : Except GenError Project :=
  match validateSettings req.settings with
  | some m => Except.error (GenError.validationError m)
  | none =>
      Except.ok
        { id := idv, settings := req.settings, status := Status.draft
        , output_path := none, error_message := none }

/-- Modelled from the spec: `update(id, partialSettings)` (section 4.1,
missing app/api/generator.py).  It fails with `InvalidStateError` unless the
status is `draft` or `failed`; on success the settings are replaced and any
prior `error_message` is cleared, the status itself is not touched. -/
def update (p : Project) (ns : Settings) : Except GenError Project :=
  if p.status = Status.draft ∨ p.status = Status.failed then
    match validateSettings ns with
    | some m => Except.error (GenError.validationError m)
    | none => Except.ok { p with settings := ns, error_message := none }
  else
    Except.error (GenError.invalidStateError "project can only be edited in draft or failed state")

/-- The acknowledgement of the Process Project endpoint
(API_DOCUMENTATION.md lines 315-324). -/
structure Ack where
  success : Bool
  message : String
  project_id : Nat
deriving DecidableEq, Repr

def fixedAck (idv : Nat) : Ack :=
  { success := true, message := "Video processing started", project_id := idv }

/-- Modelled from the spec: the synchronous part of `process(id)` (sections
4.1 and 5, missing app/api/generator.py).  The guard `draft|failed →
processing` is the single atomic check-and-set on the persisted status; the
call returns the fixed acknowledgement and the updated record, or fails with
`InvalidStateError` when the status forbids it, or with `ValidationError`
when `video_track_path` is missing. -/
def processCall (p : Project) : Except GenError (Ack × Project) :=
  if p.status = Status.draft ∨ p.status = Status.failed then
    if p.settings.video_track_path.getD "" = "" then
      Except.error (GenError.validationError "video_track_path is missing")
    else
      Except.ok (fixedAck p.id, { p with status := Status.processing })
  else
    Except.error (GenError.invalidStateError "project is already processing or finished")

/-- Outcome of the background pipeline run for one project: the external
tool chain succeeds with a final artifact, or a stage fails (non-zero exit /
missing output), or a stage times out. -/
inductive PipelineOutcome
  | success (out : String)
  | toolFailure (diag : String)
  | timeout (diag : String)
deriving DecidableEq, Repr

/-- The human-readable summary recorded for a failing outcome (spec section
7: `ToolExecutionError` and `TimeoutError` are treated alike, the message
distinguishes the cause). -/
def outcomeError : PipelineOutcome → Option String
  | PipelineOutcome.success _ => none
  | PipelineOutcome.toolFailure d => some ("Stage failed: " ++ d)
  | PipelineOutcome.timeout d => some ("Stage timed out: " ++ d)

/-- Modelled from the spec: how the worker records the pipeline result
(section 4.1, missing app/services/video_generator.py).  Success sets
`output_path`, clears `error_message` and completes; failure records the
summary and moves to `failed`. -/
def runPipeline (o : PipelineOutcome) (p : Project) : Project :=
  match o with
  | PipelineOutcome.success out =>
      { p with
          status := Status.completed
          output_path := some out
          error_message := none }
  | PipelineOutcome.toolFailure _ =>
      { p with status := Status.failed, error_message := outcomeError o }
  | PipelineOutcome.timeout _ =>
      { p with status := Status.failed, error_message := outcomeError o }

/-- Modelled from the spec: `export(id)` (section 4.1, missing
app/api/generator.py).  It fails with `InvalidStateError` unless the project
is completed, and returns the `output_path`. -/
def exportProject (p : Project) : Except GenError (Option String) :=
  if p.status = Status.completed then
    Except.ok p.output_path
  else
    Except.error (GenError.invalidStateError "project is not completed")

/-- Two `process(id)` calls on the same project.  The guard transition is a
single atomic check-and-set on the persisted status (spec section 5), so any
concurrent execution of the two calls is equivalent to running them one
after the other: the second call reads the state the first one wrote. -/
def twoProcessCalls (p : Project) :
    Except GenError (Ack × Project) × Except GenError (Ack × Project) :=
  match processCall p with
  | Except.ok (_, p₁) => (processCall p, processCall p₁)
  | Except.error _ => (processCall p, processCall p)

def isAccepted : Except GenError (Ack × Project) → Bool
  | Except.ok _ => true
  | Except.error _ => false

/-! ## Subtitle Uniquifier

Modelled from the spec (section 4.3, missing
app/services/video_generator.py): the output descriptor carries the original
characters, each paired with bounded, imperceptible presentation jitters
derived deterministically from the seed and the character position. -/

structure Glyph where
  ch : Char
  spacingMilliOffset : Int
  weightDelta : Int
  opacityMilliDelta : Int
deriving DecidableEq, Repr

inductive SubPosition
  | bottomCenter
deriving DecidableEq, Repr

structure SubtitleDescriptor where
  glyphs : List Glyph
  position : SubPosition
deriving DecidableEq, Repr

/-- Modelled from the spec: one rendered character with its jitters, all
drawn from narrow bands around zero. -/
def mkGlyph (seed i : Nat) (c : Char) : Glyph :=
  { ch := c
  , spacingMilliOffset := Int.ofNat ((seed + 31 * i + c.toNat) % 7) - 3
  , weightDelta := Int.ofNat ((seed + 17 * i + c.toNat) % 3) - 1
  , opacityMilliDelta := Int.ofNat ((seed + 13 * i + c.toNat) % 5) - 2 }

def glyphsFrom (seed : Nat) : Nat → List Char → List Glyph
  | _, [] => []
  | i, c :: cs => mkGlyph seed i c :: glyphsFrom seed (i + 1) cs

/-- Modelled from the spec: the Subtitle Uniquifier (section 4.3).  A pure
function of the seed and the caption text. -/
def uniquify (seed : Nat) (text : String) : SubtitleDescriptor :=
  { glyphs := glyphsFrom seed 0 text.data, position := SubPosition.bottomCenter }

/-- The raw text burned in with the fixed style (spec section 4.2, rule 4),
used when `uniquify_subtitles` is false. -/
def plainDescriptor (text : String) : SubtitleDescriptor :=
  { glyphs := text.data.map fun c =>
      { ch := c, spacingMilliOffset := 0, weightDelta := 0, opacityMilliDelta := 0 }
  , position := SubPosition.bottomCenter }

/-- The textual content carried by a descriptor. -/
def descriptorText (d : SubtitleDescriptor) : String :=
  String.mk (d.glyphs.map Glyph.ch)

/-- Modelled from the spec: the deterministic seed derived from the project
id (section 4.3). -/
def seedOf (idv : Nat) : Nat :=
  (2654435761 * idv + 97) % 4294967296

/-! ## Command/Stage Composer

Modelled from the spec (section 4.2, missing
app/services/video_generator.py), with the filter enumeration taken from the
repository documentation. -/

/-- One transformation stage.  The audio stage replaces the audio of the
artifact entirely with the background track at the given linear amplitude
gain; the filter stage applies the tone curve named by its identifier. -/
inductive Stage
  | base (video : String)
  | audio (track : String) (gain : ℚ)
  | filterStage (name : String)
  | subtitle (d : SubtitleDescriptor)
deriving DecidableEq, Repr

/-- The linear amplitude gain law of the spec: `audio_volume / 100.0`,
represented exactly over ℚ. -/
def audioGain (v : Int) : ℚ :=
  (v : ℚ) / 100

/-- Rule 2 of the Composer: an audio stage iff `audio_track_path` is set. -/
def audioStages (s : Settings) : List Stage :=
  match s.audio_track_path with
  | some a => [Stage.audio a (audioGain s.audio_volume)]
  | none => []

/-- Rule 3 of the Composer: a filter stage iff `filter_type` is not none. -/
def filterStages (s : Settings) : List Stage :=
  if s.filter_type = "none" then [] else [Stage.filterStage s.filter_type]

/-- Rule 4 of the Composer: a subtitle stage iff `subtitle_text` is
non-empty, uniquified when requested. -/
def subtitleStages (idv : Nat) (s : Settings) : List Stage :=
  if s.subtitle_text = "" then []
  else if s.uniquify_subtitles then
    [Stage.subtitle (uniquify (seedOf idv) s.subtitle_text)]
  else
    [Stage.subtitle (plainDescriptor s.subtitle_text)]

/-- Modelled from the spec: the Composer (section 4.2).  A pure function of
the settings to an ordered Stage Plan; an unknown `filter_type` fails
construction with `ValidationError`, a missing video track too. -/
def buildStagePlan (p : Project) : Except GenError (List Stage) :=
  if p.settings.filter_type ∈ documentedFilterTypes then
    match p.settings.video_track_path with
    | none => Except.error (GenError.validationError "video_track_path is missing")
    | some v =>
        Except.ok ([Stage.base v] ++ audioStages p.settings ++
          filterStages p.settings ++ subtitleStages p.id p.settings)
  else
    Except.error (GenError.validationError "unknown filter_type")

/-! ## Concrete instances used by witnesses and counterexamples -/

/-- A valid settings record. -/
def sEx : Settings :=
  { video_track_path := some "/uploads/videos/source.mp4"
  , audio_track_path := some "/uploads/audio/music.mp3"
  , subtitle_text := "Hello"
  , audio_volume := 50
  , filter_type := "vintage"
  , uniquify_subtitles := true }

/-- The create payload the frontend sends from `exportVideo`: note the
requested status `processing`. -/
def reqEx : CreateRequest :=
  { settings := sEx, requested_status := some Status.processing }

/-- A draft project with valid settings. -/
def pDraftEx : Project :=
  { id := 7, settings := sEx, status := Status.draft
  , output_path := none, error_message := none }

/-- A failed project with valid settings and a recorded error. -/
def pFailedEx : Project :=
  { id := 7, settings := sEx, status := Status.failed
  , output_path := none, error_message := some "Stage failed: ffmpeg exited with code 1" }

/-- A completed project. -/
def pCompletedEx : Project :=
  { id := 7, settings := sEx, status := Status.completed
  , output_path := some "/uploads/projects/video_20241224_123456_abc123.mp4"
  , error_message := none }

/-- A processing project. -/
def pProcessingEx : Project :=
  { id := 7, settings := sEx, status := Status.processing
  , output_path := none, error_message := none }

/-- The record `update` produces from `pFailedEx`. -/
def pAfterUpdateEx : Project :=
  { pFailedEx with error_message := none }

/-- The record `processCall` hands to the worker when retrying `pFailedEx`. -/
def pRetryEx : Project :=
  { pFailedEx with status := Status.processing }

/-- The project `create 1 reqEx` returns. -/
def pCreatedEx : Project :=
  { id := 1, settings := sEx, status := Status.draft
  , output_path := none, error_message := none }

/-- A create payload without a video track. -/
def reqEmptyEx : CreateRequest :=
  { settings := { sEx with video_track_path := none }
  , requested_status := none }

/-- The stage plan of `pDraftEx`. -/
def planEx : List Stage :=
  [ Stage.base "/uploads/videos/source.mp4"
  , Stage.audio "/uploads/audio/music.mp3" (audioGain 50)
  , Stage.filterStage "vintage"
  , Stage.subtitle (uniquify (seedOf 7) "Hello") ]

/-- Settings selecting the documented filter `cinematic`, which the Preset
Table of the spec does not list. -/
def sCinematic : Settings :=
  { video_track_path := some "/uploads/videos/source.mp4"
  , audio_track_path := none, subtitle_text := "", audio_volume := 80
  , filter_type := "cinematic", uniquify_subtitles := false }

def pCinematicEx : Project :=
  { id := 3, settings := sCinematic, status := Status.draft
  , output_path := none, error_message := none }

def planCinematicEx : List Stage :=
  [Stage.base "/uploads/videos/source.mp4", Stage.filterStage "cinematic"]

/-- Settings selecting `cold`, which the Preset Table of the spec lists but
the repository documentation does not. -/
def sCold : Settings :=
  { sCinematic with filter_type := "cold" }

def pColdEx : Project :=
  { pCinematicEx with settings := sCold }

/-- Page state with no uploaded video but an account chosen. -/
def pageNoVideoEx : GeneratorPage :=
  { uploadedVideo := none, accountSelectValue := "3", currentProject := none }

/-- Page state with a video uploaded but no account chosen. -/
def pageNoAccountEx : GeneratorPage :=
  { uploadedVideo := some "/uploads/videos/source.mp4"
  , accountSelectValue := "", currentProject := none }

/-- An ok response with a parsed JSON body. -/
def respOkEx : HttpResponse :=
  { ok := true, status := 200, statusText := "OK"
  , body := JsBody.json (some "payload") }

/-- A 404 whose body carries a detail field. -/
def resp404Ex : HttpResponse :=
  { ok := false, status := 404, statusText := "Not Found"
  , body := JsBody.json (some "Account with ID 123 not found") }

/-- A 404 whose parsed body has no detail field. -/
def respNoDetailEx : HttpResponse :=
  { ok := false, status := 404, statusText := "Not Found"
  , body := JsBody.json none }

/-! ## Helper lemmas -/

theorem glyphsFrom_map_ch (seed : Nat) (cs : List Char) :
    ∀ i, (glyphsFrom seed i cs).map Glyph.ch = cs := by
  induction cs with
  | nil => intro i; rfl
  | cons c cs ih => intro i; simp [glyphsFrom, mkGlyph, ih]

theorem audio_not_mem_filterStages (s : Settings) (t : String) (g : ℚ) :
    Stage.audio t g ∉ filterStages s := by
  unfold filterStages
  split <;> simp

theorem audio_not_mem_subtitleStages (idv : Nat) (s : Settings) (t : String) (g : ℚ) :
    Stage.audio t g ∉ subtitleStages idv s := by
  unfold subtitleStages
  split
  · simp
  · split <;> simp

theorem filterStage_not_mem_audioStages (s : Settings) (name : String) :
    Stage.filterStage name ∉ audioStages s := by
  unfold audioStages
  split <;> simp

theorem filterStage_not_mem_subtitleStages (idv : Nat) (s : Settings) (name : String) :
    Stage.filterStage name ∉ subtitleStages idv s := by
  unfold subtitleStages
  split
  · simp
  · split <;> simp

theorem buildStagePlan_ok (p : Project) (v : String)
    (hmem : p.settings.filter_type ∈ documentedFilterTypes)
    (hv : p.settings.video_track_path = some v) :
    buildStagePlan p =
      Except.ok ([Stage.base v] ++ audioStages p.settings ++
        filterStages p.settings ++ subtitleStages p.id p.settings) := by
  unfold buildStagePlan
  rw [if_pos hmem, hv]

/-! ## Claim C8 -/

/-- Claim C8: for every caption text and every seed, the output descriptor of
the Subtitle Uniquifier carries the original words with the textual content
preserved exactly, and running it twice with the same seed and the same text
yields the identical descriptor. -/
theorem C8_uniquifier_contract (seed : Nat) (text : String) :
    descriptorText (uniquify seed text) = text ∧
    (uniquify seed text).glyphs.map Glyph.ch = text.data ∧
    (∀ seed' text', seed' = seed → text' = text →
      uniquify seed' text' = uniquify seed text) := by
  refine ⟨?_, glyphsFrom_map_ch seed text.data 0, ?_⟩
  · show String.mk ((glyphsFrom seed 0 text.data).map Glyph.ch) = text
    rw [glyphsFrom_map_ch seed text.data 0]
  · intro seed' text' hs ht
    rw [hs, ht]

/-- Witness for C8 at the seed of project 7 and the caption Hello. -/
theorem C8_uniquifier_contract_witness :
    descriptorText (uniquify (seedOf 7) "Hello") = "Hello" :=
  (C8_uniquifier_contract (seedOf 7) "Hello").1

/-! ## Claim C1 -/

/-- Claim C1: for every project whose audio track is set and whose volume is
an integer in [0,100], the Composer plan contains an Audio stage replacing
the audio with the background track at linear gain exactly
`audio_volume / 100`, every Audio stage of the plan carries exactly that
gain, the gain lies in [0,1], and volume 50 yields gain 1/2, volume 0 yields
0, volume 100 yields 1. -/
theorem C1_audio_gain (p : Project) (a : String) (plan : List Stage)
    (ha : p.settings.audio_track_path = some a)
    (h0 : 0 ≤ p.settings.audio_volume) (h100 : p.settings.audio_volume ≤ 100)
    (hplan : buildStagePlan p = Except.ok plan) :
    Stage.audio a (audioGain p.settings.audio_volume) ∈ plan ∧
    (∀ t g, Stage.audio t g ∈ plan →
      t = a ∧ g = (p.settings.audio_volume : ℚ) / 100) ∧
    0 ≤ audioGain p.settings.audio_volume ∧
    audioGain p.settings.audio_volume ≤ 1 ∧
    audioGain 50 = 1/2 ∧ audioGain 0 = 0 ∧ audioGain 100 = 1 := by
  have hplan' := hplan
  unfold buildStagePlan at hplan'
  by_cases hmem : p.settings.filter_type ∈ documentedFilterTypes
  · rw [if_pos hmem] at hplan'
    cases hv : p.settings.video_track_path with
    | none => rw [hv] at hplan'; cases hplan'
    | some v =>
      rw [hv] at hplan'
      have hplaneq : plan = [Stage.base v] ++ audioStages p.settings ++
          filterStages p.settings ++ subtitleStages p.id p.settings :=
        (Except.ok.injEq _ _).mp hplan'.symm
      have haud : audioStages p.settings =
          [Stage.audio a (audioGain p.settings.audio_volume)] := by
        unfold audioStages
        rw [ha]
      refine ⟨?_, ?_, ?_, ?_, ?_, ?_, ?_⟩
      · rw [hplaneq, haud]
        simp
      · intro t g hmem'
        rw [hplaneq] at hmem'
        simp only [List.mem_append] at hmem'
        rcases hmem' with ((hb | hau) | hf) | hs
        · simp at hb
        · rw [haud] at hau
          simp only [List.mem_singleton] at hau
          obtain ⟨h₁, h₂⟩ := (Stage.audio.injEq _ _ _ _).mp hau
          exact ⟨h₁, h₂⟩
        · exact absurd hf (audio_not_mem_filterStages _ _ _)
        · exact absurd hs (audio_not_mem_subtitleStages _ _ _ _)
      · unfold audioGain
        positivity
      · unfold audioGain
        rw [div_le_one (by norm_num)]
        exact_mod_cast h100
      · norm_num [audioGain]
      · norm_num [audioGain]
      · norm_num [audioGain]
  · rw [if_neg hmem] at hplan'
    cases hplan'

/-- Witness for C1 on `pDraftEx` (volume 50, background music set). -/
theorem C1_audio_gain_witness :
    Stage.audio "/uploads/audio/music.mp3" (audioGain pDraftEx.settings.audio_volume) ∈ planEx ∧
    0 ≤ audioGain pDraftEx.settings.audio_volume ∧
    audioGain pDraftEx.settings.audio_volume ≤ 1 ∧
    audioGain 50 = 1/2 := by
  have h := C1_audio_gain pDraftEx "/uploads/audio/music.mp3" planEx rfl
    (by decide) (by decide) rfl
  exact ⟨h.1, h.2.2.1, h.2.2.2.1, h.2.2.2.2.1⟩

/-! ## Claim C2 -/

/-- Counterexample to C2 as stated: the enumeration of the claim is the
Preset Table set `none, vintage, cold, warm, bw, vaporwave`, but the
repository documents the closed set `none, cinematic, bright, cyberpunk,
vintage, warm, cool` (API_DOCUMENTATION.md lines 528-538).  Concretely, the
Composer accepts `cinematic` although it lies outside the claimed set, and
rejects `cold` with `ValidationError` although the claimed set and the
Preset Table list it. -/
theorem C2_filter_enum_counterexample :
    ("cinematic" ∈ specFilterTypes → False) ∧
    "cinematic" ∈ documentedFilterTypes ∧
    buildStagePlan pCinematicEx = Except.ok planCinematicEx ∧
    Stage.filterStage "cinematic" ∈ planCinematicEx ∧
    "cold" ∈ specFilterTypes ∧
    ("cold" ∈ documentedFilterTypes → False) ∧
    buildStagePlan pColdEx =
      Except.error (GenError.validationError "unknown filter_type") := by
  refine ⟨by decide, by decide, rfl, by decide, by decide, by decide, rfl⟩

/-- Claim C2 amended: the closed filter enumeration is the documented set
`none, cinematic, bright, cyberpunk, vintage, warm, cool`; for every
`filter_type` in this set (and a present video track) Composer construction
succeeds and emits exactly one Filter stage carrying that identifier when it
is not `none` and no Filter stage when it is `none`; for every `filter_type`
outside the set, construction fails with `ValidationError` and emits no
stage, never silently defaulting. -/
theorem C2_filter_enum_amended (p : Project) (v : String)
    (hv : p.settings.video_track_path = some v) :
    (p.settings.filter_type ∈ documentedFilterTypes →
      (buildStagePlan p).isOk = true) ∧
    (p.settings.filter_type ∈ documentedFilterTypes →
      p.settings.filter_type ≠ "none" →
      ∀ plan, buildStagePlan p = Except.ok plan →
        Stage.filterStage p.settings.filter_type ∈ plan ∧
        (∀ name, Stage.filterStage name ∈ plan → name = p.settings.filter_type)) ∧
    (p.settings.filter_type = "none" →
      ∀ plan, buildStagePlan p = Except.ok plan →
        ∀ name, Stage.filterStage name ∉ plan) ∧
    (p.settings.filter_type ∉ documentedFilterTypes →
      buildStagePlan p =
        Except.error (GenError.validationError "unknown filter_type")) := by
  refine ⟨?_, ?_, ?_, ?_⟩
  · intro hmem
    rw [buildStagePlan_ok p v hmem hv]
    rfl
  · intro hmem hne plan hplan
    rw [buildStagePlan_ok p v hmem hv] at hplan
    have hplaneq : plan = [Stage.base v] ++ audioStages p.settings ++
        filterStages p.settings ++ subtitleStages p.id p.settings :=
      (Except.ok.injEq _ _).mp hplan.symm
    have hfs : filterStages p.settings = [Stage.filterStage p.settings.filter_type] := by
      unfold filterStages
      rw [if_neg hne]
    constructor
    · rw [hplaneq, hfs]
      simp
    · intro name hname
      rw [hplaneq] at hname
      simp only [List.mem_append] at hname
      rcases hname with ((hb | hau) | hf) | hs
      · simp at hb
      · exact absurd hau (filterStage_not_mem_audioStages _ _)
      · rw [hfs] at hf
        simp only [List.mem_singleton] at hf
        exact (Stage.filterStage.injEq _ _).mp hf
      · exact absurd hs (filterStage_not_mem_subtitleStages _ _ _)
  · intro hnone plan hplan name
    have hmem : p.settings.filter_type ∈ documentedFilterTypes := by
      rw [hnone]; decide
    rw [buildStagePlan_ok p v hmem hv] at hplan
    have hplaneq : plan = [Stage.base v] ++ audioStages p.settings ++
        filterStages p.settings ++ subtitleStages p.id p.settings :=
      (Except.ok.injEq _ _).mp hplan.symm
    have hfs : filterStages p.settings = [] := by
      unfold filterStages
      rw [if_pos hnone]
    rw [hplaneq, hfs]
    intro hname
    simp only [List.append_nil, List.mem_append] at hname
    rcases hname with (hb | hau) | hs
    · simp at hb
    · exact absurd hau (filterStage_not_mem_audioStages _ _)
    · exact absurd hs (filterStage_not_mem_subtitleStages _ _ _)
  · intro hmem
    unfold buildStagePlan
    rw [if_neg hmem]

/-- Witness for the amended C2: `cinematic` yields a Filter stage and `cold`
is rejected. -/
theorem C2_filter_enum_amended_witness :
    Stage.filterStage "cinematic" ∈ planCinematicEx ∧
    buildStagePlan pColdEx =
      Except.error (GenError.validationError "unknown filter_type") := by
  have h₁ := (C2_filter_enum_amended pCinematicEx "/uploads/videos/source.mp4" rfl).2.1
    (by decide) (by decide) planCinematicEx rfl
  have h₂ := (C2_filter_enum_amended pColdEx "/uploads/videos/source.mp4" rfl).2.2.2
    (by decide)
  exact ⟨h₁.1, h₂⟩

/-! ## Claim C3 -/

/-- Claim C3: on a project in draft or failed, two `process(id)` calls on the
same project, serialized by the atomic check-and-set on the persisted status,
result in exactly one accepted transition to `processing`; the other call
fails with `InvalidStateError`. -/
theorem C3_process_concurrency (p : Project)
    (h : p.status = Status.draft ∨ p.status = Status.failed)
    (hv : ¬ p.settings.video_track_path.getD "" = "") :
    isAccepted (twoProcessCalls p).1 = true ∧
    isAccepted (twoProcessCalls p).2 = false ∧
    (twoProcessCalls p).2 =
      Except.error (GenError.invalidStateError "project is already processing or finished") ∧
    (∀ a q, (twoProcessCalls p).1 = Except.ok (a, q) → q.status = Status.processing) := by
  have hp : processCall p =
      Except.ok (fixedAck p.id, { p with status := Status.processing }) := by
    unfold processCall
    rw [if_pos h, if_neg hv]
  have hp2 : processCall { p with status := Status.processing } =
      Except.error (GenError.invalidStateError "project is already processing or finished") := by
    unfold processCall
    rw [if_neg (by simp)]
  have ht : twoProcessCalls p =
      (processCall p, processCall { p with status := Status.processing }) := by
    unfold twoProcessCalls
    rw [hp]
  rw [ht, hp, hp2]
  refine ⟨rfl, rfl, rfl, ?_⟩
  intro a q hq
  obtain ⟨-, hq₂⟩ := Prod.mk.injEq _ _ _ _ ▸ (Except.ok.injEq _ _).mp hq
  rw [← hq₂]

/-- Witness for C3 on the draft project `pDraftEx`. -/
theorem C3_process_concurrency_witness :
    isAccepted (twoProcessCalls pDraftEx).1 = true ∧
    isAccepted (twoProcessCalls pDraftEx).2 = false ∧
    (twoProcessCalls pDraftEx).2 =
      Except.error (GenError.invalidStateError "project is already processing or finished") := by
  have h := C3_process_concurrency pDraftEx (Or.inl rfl) (by decide)
  exact ⟨h.1, h.2.1, h.2.2.1⟩

/-! ## Claim C4 -/

/-- Counterexample to C4 as stated: the spec-modelled `update` on a failed
project clears `error_message` while leaving the status `failed` (spec
section 4.1: on success any prior error_message is cleared), and the
spec-modelled `process` accepts a failed project and enters `processing`
with the old `error_message` still set; both observable states violate
invariant I2. -/
theorem C4_invariants_counterexample :
    Invariants pFailedEx ∧
    update pFailedEx sEx = Except.ok pAfterUpdateEx ∧
    pAfterUpdateEx.status = Status.failed ∧
    pAfterUpdateEx.error_message = none ∧
    ¬ Invariants pAfterUpdateEx ∧
    processCall pFailedEx = Except.ok (fixedAck 7, pRetryEx) ∧
    pRetryEx.status = Status.processing ∧
    pRetryEx.error_message = some "Stage failed: ffmpeg exited with code 1" ∧
    ¬ Invariants pRetryEx := by
  refine ⟨by decide, rfl, rfl, rfl, by decide, rfl, rfl, rfl, by decide⟩

/-- Claim C4 amended: invariant I1 is preserved by every operation, and both
invariants are preserved by `create`, by `update` and `process` on draft
projects, and by both pipeline outcomes from `processing`; on failed
projects, `update` clears `error_message` while the status stays `failed`
and `process` enters `processing` with `error_message` still set, so I2 does
not survive the two retry paths (see the counterexample). -/
theorem C4_invariants_amended (idv : Nat) (req : CreateRequest) (p : Project)
    (ns : Settings) (o : PipelineOutcome) (hI : Invariants p) :
    (∀ q, create idv req = Except.ok q → Invariants q) ∧
    (∀ q, update p ns = Except.ok q → I1 q) ∧
    (∀ a q, processCall p = Except.ok (a, q) → I1 q) ∧
    (p.status = Status.draft → ∀ q, update p ns = Except.ok q → Invariants q) ∧
    (p.status = Status.draft → ∀ a q, processCall p = Except.ok (a, q) → Invariants q) ∧
    (p.status = Status.processing → Invariants (runPipeline o p)) ∧
    (∀ out, exportProject p = Except.ok out → Invariants p) := by
  obtain ⟨hI1, hI2⟩ := hI
  have hupd : ∀ q, update p ns = Except.ok q →
      q = { p with settings := ns, error_message := none } := by
    intro q hq
    unfold update at hq
    split at hq
    · split at hq
      · cases hq
      · exact ((Except.ok.injEq _ _).mp hq).symm
    · cases hq
  have hproc : ∀ a q, processCall p = Except.ok (a, q) →
      q = { p with status := Status.processing } ∧
      (p.status = Status.draft ∨ p.status = Status.failed) := by
    intro a q hq
    unfold processCall at hq
    split at hq
    · split at hq
      · cases hq
      · refine ⟨?_, by assumption⟩
        obtain ⟨-, hq₂⟩ := Prod.mk.injEq _ _ _ _ ▸ (Except.ok.injEq _ _).mp hq
        exact hq₂.symm
    · cases hq
  refine ⟨?_, ?_, ?_, ?_, ?_, ?_, ?_⟩
  · intro q hq
    unfold create at hq
    split at hq
    · cases hq
    · obtain hq' := ((Except.ok.injEq _ _).mp hq).symm
      rw [hq']
      constructor <;> simp [I1, I2]
  · intro q hq
    rw [hupd q hq]
    unfold I1 at hI1 ⊢
    simpa using hI1
  · intro a q hq
    obtain ⟨hq', hst⟩ := hproc a q hq
    rw [hq']
    unfold I1 at hI1 ⊢
    simp only
    constructor
    · intro hout
      exact absurd (hI1.mp hout) (by rcases hst with h | h <;> rw [h] <;> decide)
    · intro hco
      cases hco
  · intro hdraft q hq
    rw [hupd q hq]
    refine ⟨?_, ?_⟩
    · unfold I1 at hI1 ⊢
      simpa using hI1
    · unfold I2
      simp [hdraft]
  · intro hdraft a q hq
    obtain ⟨hq', -⟩ := hproc a q hq
    have herr : p.error_message = none := by
      rcases he : p.error_message with _ | m
      · rfl
      · exact absurd (hI2.mp (by rw [he]; exact nofun)) (by rw [hdraft]; decide)
    rw [hq']
    constructor
    · unfold I1 at hI1 ⊢
      simp only
      constructor
      · intro hout
        exact absurd (hI1.mp hout) (by rw [hdraft]; decide)
      · intro hco
        cases hco
    · unfold I2
      simp [herr]
  · intro hprocst
    have hout : p.output_path = none := by
      rcases ho : p.output_path with _ | path
      · rfl
      · exact absurd (hI1.mp (by rw [ho]; exact nofun)) (by rw [hprocst]; decide)
    cases o with
    | success out => constructor <;> simp [runPipeline, I1, I2]
    | toolFailure d =>
      constructor
      · unfold I1
        simp [runPipeline, hout]
      · unfold I2
        simp [runPipeline, outcomeError]
    | timeout d =>
      constructor
      · unfold I1
        simp [runPipeline, hout]
      · unfold I2
        simp [runPipeline, outcomeError]
  · intro out hout
    exact ⟨hI1, hI2⟩

/-- Witness for the amended C4: create yields an invariant-satisfying
project, and both pipeline outcomes from `processing` restore the
invariants. -/
theorem C4_invariants_amended_witness :
    Invariants pCreatedEx ∧
    Invariants (runPipeline (PipelineOutcome.success "/uploads/projects/out.mp4") pProcessingEx) ∧
    Invariants (runPipeline (PipelineOutcome.toolFailure "exit 1") pProcessingEx) := by
  have h₁ := (C4_invariants_amended 1 reqEx pProcessingEx sEx
    (PipelineOutcome.success "/uploads/projects/out.mp4") (by decide)).1 pCreatedEx rfl
  have h₂ := (C4_invariants_amended 1 reqEx pProcessingEx sEx
    (PipelineOutcome.success "/uploads/projects/out.mp4") (by decide)).2.2.2.2.2.1 rfl
  have h₃ := (C4_invariants_amended 1 reqEx pProcessingEx sEx
    (PipelineOutcome.toolFailure "exit 1") (by decide)).2.2.2.2.2.1 rfl
  exact ⟨h₁, h₂, h₃⟩

/-! ## Claim C5 -/

/-- Claim C5: `create(settings)` always returns a project in `draft` (never
any other status, in particular never `processing`, even when the payload
requests it), with null output_path and error_message, after validating
`0 ≤ audio_volume ≤ 100`, the closed filter enumeration and a present,
non-empty `video_track_path`; an absent or empty video track fails with
`ValidationError`. -/
theorem C5_create_draft (idv : Nat) (req : CreateRequest) :
    (∀ p, create idv req = Except.ok p →
      p.status = Status.draft ∧ ¬ p.status = Status.processing ∧
      p.output_path = none ∧ p.error_message = none ∧
      0 ≤ req.settings.audio_volume ∧ req.settings.audio_volume ≤ 100 ∧
      req.settings.filter_type ∈ documentedFilterTypes ∧
      ¬ req.settings.video_track_path.getD "" = "") ∧
    (req.settings.video_track_path.getD "" = "" →
      create idv req =
        Except.error (GenError.validationError "video_track_path is required")) := by
  constructor
  · intro p hp
    unfold create at hp
    cases hval : validateSettings req.settings with
    | some m => rw [hval] at hp; cases hp
    | none =>
      rw [hval] at hp
      obtain hp' := ((Except.ok.injEq _ _).mp hp).symm
      unfold validateSettings at hval
      split at hval
      · cases hval
      · split at hval
        · cases hval
        · split at hval
          · rename_i hvideo hvol hmem
            rw [hp']
            refine ⟨rfl, nofun, rfl, rfl, ?_, ?_, hmem, hvideo⟩
            · push_neg at hvol
              exact hvol.1
            · push_neg at hvol
              exact hvol.2
          · cases hval
  · intro hempty
    unfold create validateSettings
    rw [if_pos hempty]

/-- Witness for C5: the payload the frontend sends from `exportVideo`
(requested status `processing`) still yields a draft project, and a payload
without a video track is rejected. -/
theorem C5_create_draft_witness :
    pCreatedEx.status = Status.draft ∧
    ¬ pCreatedEx.status = Status.processing ∧
    create 1 reqEmptyEx =
      Except.error (GenError.validationError "video_track_path is required") := by
  have h := (C5_create_draft 1 reqEx).1 pCreatedEx rfl
  have h₂ := (C5_create_draft 1 reqEmptyEx).2 rfl
  exact ⟨h.1, h.2.1, h₂⟩

/-! ## Claim C6 -/

/-- Claim C6: `export(id)` fails with `InvalidStateError` whenever the
status is not `completed` (draft, processing and failed alike) and returns
the `output_path` when it is. -/
theorem C6_export_guard (p : Project) :
    (¬ p.status = Status.completed →
      exportProject p =
        Except.error (GenError.invalidStateError "project is not completed")) ∧
    (p.status = Status.completed → exportProject p = Except.ok p.output_path) := by
  constructor
  · intro h
    unfold exportProject
    rw [if_neg h]
  · intro h
    unfold exportProject
    rw [if_pos h]

/-- Witness for C6: a completed project exports its output path; a failed
project (non-null error_message) is refused. -/
theorem C6_export_guard_witness :
    exportProject pCompletedEx =
      Except.ok (some "/uploads/projects/video_20241224_123456_abc123.mp4") ∧
    exportProject pFailedEx =
      Except.error (GenError.invalidStateError "project is not completed") := by
  have h₁ := (C6_export_guard pCompletedEx).2 rfl
  have h₂ := (C6_export_guard pFailedEx).1 (by decide)
  exact ⟨h₁, h₂⟩

/-! ## Claim C7 -/

/-- Claim C7: an accepted `process(id)` call returns the fixed
acknowledgement, the same for every pipeline outcome (the caller never sees
a pipeline error), and every failing outcome is recorded as the
`error_message` of the re-read project, whose status is then `failed`. -/
theorem C7_process_async_errors (p : Project) (a : Ack) (p₁ : Project)
    (o : PipelineOutcome) (h : processCall p = Except.ok (a, p₁)) :
    a = fixedAck p.id ∧ a.success = true ∧
    (∀ m, outcomeError o = some m →
      (runPipeline o p₁).status = Status.failed ∧
      (runPipeline o p₁).error_message = some m) := by
  have hack : a = fixedAck p.id := by
    unfold processCall at h
    split at h
    · split at h
      · cases h
      · obtain ⟨h₁, -⟩ := Prod.mk.injEq _ _ _ _ ▸ (Except.ok.injEq _ _).mp h
        exact h₁.symm
    · cases h
  refine ⟨hack, by rw [hack]; rfl, ?_⟩
  intro m hm
  cases o with
  | success out => cases hm
  | toolFailure d =>
    refine ⟨rfl, ?_⟩
    rw [show (runPipeline (PipelineOutcome.toolFailure d) p₁).error_message =
      outcomeError (PipelineOutcome.toolFailure d) from rfl, hm]
  | timeout d =>
    refine ⟨rfl, ?_⟩
    rw [show (runPipeline (PipelineOutcome.timeout d) p₁).error_message =
      outcomeError (PipelineOutcome.timeout d) from rfl, hm]

/-- Witness for C7: the accepted call on `pDraftEx` returns the fixed
acknowledgement, and a tool failure is recorded on the re-read project. -/
theorem C7_process_async_errors_witness :
    fixedAck 7 = fixedAck pDraftEx.id ∧
    (runPipeline (PipelineOutcome.toolFailure "ffmpeg exited with code 1") pProcessingEx).status
      = Status.failed ∧
    (runPipeline (PipelineOutcome.toolFailure "ffmpeg exited with code 1") pProcessingEx).error_message
      = some "Stage failed: ffmpeg exited with code 1" := by
  have h := C7_process_async_errors pDraftEx (fixedAck 7) pProcessingEx
    (PipelineOutcome.toolFailure "ffmpeg exited with code 1") rfl
  exact ⟨h.1, (h.2.2 _ rfl).1, (h.2.2 _ rfl).2⟩

/-! ## Claim C9 -/

/-- Counterexample to C9 as stated: on a non-ok response whose body cannot
be parsed as JSON, `_request` throws `Request failed` (the catch handler of
generator.js line 398 substitutes `{detail: 'Request failed'}`), not the
claimed `HTTP <status>: <statusText>` fallback. -/
theorem C9_request_counterexample :
    requestFn resp500 = RequestOutcome.thrown "Request failed" ∧
    ¬ requestFn resp500 = RequestOutcome.thrown (httpFallback resp500) ∧
    httpFallback resp500 = "HTTP 500: Internal Server Error" := by
  refine ⟨rfl, by decide, rfl⟩

/-- Claim C9 amended: `_request` resolves with the parsed JSON body when the
response is ok and the body parses; it never resolves on a non-ok response;
on a non-ok response the thrown message is the detail field of the parsed
body when that field is a non-empty string, the fallback
`HTTP <status>: <statusText>` when the body parses but carries no truthy
detail, and the literal `Request failed` when the body cannot be parsed as
JSON. -/
theorem C9_request_amended (r : HttpResponse) :
    (r.ok = true → ∀ d, r.body = JsBody.json d →
      requestFn r = RequestOutcome.resolved d) ∧
    (r.ok = false → ∀ d, ¬ requestFn r = RequestOutcome.resolved d) ∧
    (r.ok = false → ∀ s, r.body = JsBody.json (some s) → ¬ s = "" →
      requestFn r = RequestOutcome.thrown s) ∧
    (r.ok = false → (r.body = JsBody.json none ∨ r.body = JsBody.json (some "")) →
      requestFn r = RequestOutcome.thrown (httpFallback r)) ∧
    (r.ok = false → r.body = JsBody.unparseable →
      requestFn r = RequestOutcome.thrown "Request failed") := by
  refine ⟨?_, ?_, ?_, ?_, ?_⟩
  · intro hok d hb
    unfold requestFn
    rw [if_pos (by rw [hok]), hb]
  · intro hok d
    unfold requestFn
    rw [if_neg (by rw [hok]; exact nofun)]
    cases r.body <;> exact nofun
  · intro hok s hb hs
    unfold requestFn
    rw [if_neg (by rw [hok]; exact nofun), hb]
    show RequestOutcome.thrown (if s = "" then httpFallback r else s) =
      RequestOutcome.thrown s
    rw [if_neg hs]
  · intro hok hb
    rcases hb with hb | hb <;>
      · unfold requestFn
        rw [if_neg (by rw [hok]; exact nofun), hb]
        rfl
  · intro hok hb
    unfold requestFn
    rw [if_neg (by rw [hok]; exact nofun), hb]
    rfl

/-- Witness for the amended C9 at three concrete responses: an ok response
with a body, a 404 with a detail field, and a 404 without one. -/
theorem C9_request_amended_witness :
    requestFn respOkEx = RequestOutcome.resolved (some "payload") ∧
    requestFn resp404Ex = RequestOutcome.thrown "Account with ID 123 not found" ∧
    requestFn respNoDetailEx = RequestOutcome.thrown (httpFallback respNoDetailEx) := by
  have h₁ := (C9_request_amended respOkEx).1 rfl (some "payload") rfl
  have h₂ := (C9_request_amended resp404Ex).2.2.1 rfl
    "Account with ID 123 not found" rfl (by decide)
  have h₃ := (C9_request_amended respNoDetailEx).2.2.2.1 rfl (Or.inl rfl)
  exact ⟨h₁, h₂, h₃⟩

/-! ## Claim C10 -/

/-- Claim C10: whenever no video has been uploaded or no target account is
selected, `exportVideo` emits exactly one warning notification and performs
no API call at all — no project creation, no process request and no export
request — whatever the API outcomes would have been. -/
theorem C10_export_guards (st : GeneratorPage) (fails : ApiCall → Option String)
    (h : st.uploadedVideo = none ∨ st.accountSelectValue = "") :
    apiCallsOf (exportVideoFn st fails) = [] ∧
    (exportVideoFn st fails =
       [UIEvent.notification "Please upload a video first" "warning"] ∨
     exportVideoFn st fails =
       [UIEvent.notification "Please select a target account" "warning"]) := by
  cases hv : st.uploadedVideo with
  | none =>
    constructor
    · unfold exportVideoFn
      rw [hv]
      rfl
    · left
      unfold exportVideoFn
      rw [hv]
  | some v =>
    have hacc : st.accountSelectValue = "" := by
      rcases h with h | h
      · rw [hv] at h; cases h
      · exact h
    constructor
    · unfold exportVideoFn
      rw [hv, if_pos hacc]
      rfl
    · right
      unfold exportVideoFn
      rw [hv, if_pos hacc]

/-- Witness for C10 on both guard states: no video uploaded, and no account
selected. -/
theorem C10_export_guards_witness :
    apiCallsOf (exportVideoFn pageNoVideoEx (fun _ => none)) = [] ∧
    apiCallsOf (exportVideoFn pageNoAccountEx (fun _ => none)) = [] := by
  have h₁ := C10_export_guards pageNoVideoEx (fun _ => none) (Or.inl rfl)
  have h₂ := C10_export_guards pageNoAccountEx (fun _ => none) (Or.inr rfl)
  exact ⟨h₁.1, h₂.1⟩

end MultiAccAdmin
